import Mathlib

/-!
Verification development for the CounselingSystem repository.

The definitions below are shallow embeddings of the Python source:
`src/config.py` (system constants), `src/dialogue_manager.py`
(conversation turns, dialogue history, role projection, summary
manager, end-of-conversation checks), `src/reasoning_engine.py`
(reasoning results, modification records, the evaluator-output parser,
the cumulative modification prompt) and `src/agents.py` (the counselor
revision loop).  External collaborators (the LLM transport, the prompt
text, Python's `str` rendering of dictionaries, the style-smoothing
pass applied to an already accepted response) are modelled as function
parameters, matching the specification's scoping of those pieces as
external collaborators.
-/

namespace CounselingSystem

/-! ### Configuration constants (src/config.py, SystemConfig) -/

/-- Source constant `SystemConfig.MAX_DIALOGUE_LENGTH = 4`. -/
def MAX_DIALOGUE_LENGTH : Nat := 4

/-- Source constant `SystemConfig.DOCTOR_PATIENT_MAX_LENGTH = 50`. -/
def DOCTOR_PATIENT_MAX_LENGTH : Nat := 50

/-- Source constant `SystemConfig.SUMMARY_START_SIZE = 13`. -/
def SUMMARY_START_SIZE : Nat := 13

/-- Source constant `SystemConfig.SUMMARY_BUFFER_SIZE = 6`. -/
def SUMMARY_BUFFER_SIZE : Nat := 6

/-- Source constant `SystemConfig.MAX_MODIFICATION_ATTEMPTS = 3`. -/
def MAX_MODIFICATION_ATTEMPTS : Nat := 3

/-! ### Python substring containment (`sub in s`)

Implemented over the character lists of the strings involved. -/

/-- Predicate `charsBegin pat cs`: true when `cs` starts with `pat`. -/
def charsBegin : List Char → List Char → Bool
  | [], _ => true
  | _ :: _, [] => false
  | p :: ps, c :: cs => p == c && charsBegin ps cs

/-- Predicate `charsHave pat cs`: true when `pat` occurs contiguously in `cs`. -/
def charsHave : List Char → List Char → Bool
  | pat, [] => charsBegin pat []
  | pat, c :: cs => charsBegin pat (c :: cs) || charsHave pat cs

/-- Python's `sub in s` on strings. -/
def strHas (s sub : String) : Bool := charsHave sub.toList s.toList

/-! ### Data model (src/dialogue_manager.py) -/

/-- Source dataclass `ConversationTurn` (its `timestamp`/`metadata` fields are
never inspected by the code under verification, so they are omitted). -/
structure ConversationTurn where
  role : String
  content : String
deriving DecidableEq, Repr, Inhabited

/-- The mutable fields of `DialogueHistory` that the summary manager
reads and writes. -/
structure DialogueState where
  turns : List ConversationTurn
  summary_history : List String
  current_summary : String
deriving DecidableEq, Repr, Inhabited

/-- Embedding of `DialogueHistory.to_dict_format`: one `{role: content}` entry per turn. -/
def dictFormat (turns : List ConversationTurn) : List (String × String) :=
  turns.map (fun t => (t.role, t.content))

/-! ### Summary manager (src/dialogue_manager.py, SummaryManager) -/

/-- Embedding of `SummaryManager.should_summarize` (the source reads the turn count
once; it is inlined here). -/
def shouldSummarize (st : DialogueState) : Bool :=
  if st.turns.length == SUMMARY_START_SIZE then
    true
  else if SUMMARY_START_SIZE < st.turns.length then
    (st.turns.length - SUMMARY_START_SIZE) % SUMMARY_BUFFER_SIZE == 0
  else
    false

/-- The `start_index` computed in `SummaryManager.execute_summary`:
`buffer_size * ((turn_count - 1) // buffer_size) + 1`. -/
def startIndex (turnCount : Nat) : Nat :=
  SUMMARY_BUFFER_SIZE * ((turnCount - 1) / SUMMARY_BUFFER_SIZE) + 1

/-- Embedding of `SummaryManager.execute_summary`.  The LLM summarization call
(`generate_summary`, which reads only the turn list) is the parameter
`gs`; Python's `str(...)` rendering of a turn-dictionary list is the
parameter `render`.  Mutation of the `DialogueHistory` argument is made
explicit: the function returns the updated state next to the
`(content_for_processing, new_summary)` tuple of the source. -/
def executeSummary (gs : List ConversationTurn → String)
    (render : List (String × String) → String)
    (st : DialogueState) : (String × String) × DialogueState :=
  if st.turns.length < SUMMARY_START_SIZE then
    ((render (dictFormat st.turns), st.current_summary), st)
  else if shouldSummarize st then
    ((gs st.turns, gs st.turns),
      { st with current_summary := gs st.turns,
                summary_history := st.summary_history ++ [gs st.turns] })
  else if st.current_summary ≠ "" then
    ((("历史对话摘要：" ++ st.current_summary ++ "。当前聊天记录：") ++
        render (dictFormat (st.turns.drop (startIndex st.turns.length))),
      st.current_summary), st)
  else
    ((render (dictFormat st.turns), st.current_summary), st)

/-! ### Role projection (src/dialogue_manager.py, DialogueHistory) -/

/-- One entry of the OpenAI message format produced by the projection. -/
structure OpenAIMessage where
  role : String
  content : String
deriving DecidableEq, Repr, Inhabited

/-- Loop body of `DialogueHistory.to_openai_format` for the turn at
index `i`. -/
def openaiMsgFor (identity : String) (i : Nat) (t : ConversationTurn) :
    OpenAIMessage :=
  if identity == "Doctor" then
    if i % 2 == 0 then
      if t.role == "求助者" then ⟨"user", t.content⟩ else ⟨"assistant", t.content⟩
    else
      if t.role == "咨询师" then ⟨"assistant", t.content⟩ else ⟨"user", t.content⟩
  else
    if i % 2 == 0 then
      if t.role == "求助者" then ⟨"assistant", t.content⟩ else ⟨"user", t.content⟩
    else
      if t.role == "咨询师" then ⟨"user", t.content⟩ else ⟨"assistant", t.content⟩

/-- Loop body of `DialogueHistory.to_doctor_first_format` for the turn
at index `i`. -/
def doctorFirstMsgFor (identity : String) (i : Nat) (t : ConversationTurn) :
    OpenAIMessage :=
  if identity == "Doctor" then
    if i % 2 == 0 then
      if t.role == "咨询师" then ⟨"assistant", t.content⟩ else ⟨"user", t.content⟩
    else
      if t.role == "求助者" then ⟨"user", t.content⟩ else ⟨"assistant", t.content⟩
  else
    if i % 2 == 0 then
      if t.role == "咨询师" then ⟨"user", t.content⟩ else ⟨"assistant", t.content⟩
    else
      if t.role == "求助者" then ⟨"assistant", t.content⟩ else ⟨"user", t.content⟩

/-- The `for i, turn in enumerate(...)` loop of
`DialogueHistory.to_openai_format`, with the running index explicit. -/
def toOpenaiFormatAux (identity : String) (i : Nat) :
    List ConversationTurn → List OpenAIMessage
  | [] => []
  | t :: ts => openaiMsgFor identity i t :: toOpenaiFormatAux identity (i + 1) ts

/-- Embedding of `DialogueHistory.to_openai_format`. -/
def toOpenaiFormat (identity : String) (turns : List ConversationTurn) :
    List OpenAIMessage :=
  toOpenaiFormatAux identity 0 turns

/-- The enumeration loop of `DialogueHistory.to_doctor_first_format`. -/
def toDoctorFirstFormatAux (identity : String) (i : Nat) :
    List ConversationTurn → List OpenAIMessage
  | [] => []
  | t :: ts => doctorFirstMsgFor identity i t :: toDoctorFirstFormatAux identity (i + 1) ts

/-- Embedding of `DialogueHistory.to_doctor_first_format`. -/
def toDoctorFirstFormat (identity : String) (turns : List ConversationTurn) :
    List OpenAIMessage :=
  toDoctorFirstFormatAux identity 0 turns

/-- Embedding of `DialogueManager.get_openai_messages`: dispatch on the conversation
mode (`ConversationMode.DOCTOR_FIRST = "doctor-first"`,
`ConversationMode.PATIENT_FIRST = "patient-first"`). -/
def getOpenaiMessages (mode identity : String) (turns : List ConversationTurn) :
    List OpenAIMessage :=
  if mode == "doctor-first" then toDoctorFirstFormat identity turns
  else toOpenaiFormat identity turns

/-- Modelled from the spec (§4.2): the speaker that the parity table of
the given mode expects at index `i` — the patient opens and speakers
alternate in patient-first mode, the counselor opens in doctor-first
mode.  Used only to state the role-projection claim. -/
def specExpectedSpeaker (mode : String) (i : Nat) : String :=
  if mode == "doctor-first" then
    if i % 2 == 0 then "咨询师" else "求助者"
  else
    if i % 2 == 0 then "求助者" else "咨询师"

/-- Modelled from the spec (§4.2): the dialogue role owned by the
requesting identity (`"Doctor"` is the counselor, anything else is
treated as the patient, matching the code's `identity == "Doctor"`
dispatch).  Used only to state the role-projection claim. -/
def specOwnRole (identity : String) : String :=
  if identity == "Doctor" then "咨询师" else "求助者"

/-! ### End-of-session checks (src/dialogue_manager.py, src/agents.py) -/

/-- Embedding of `DialogueManager.should_end_conversation`. -/
def shouldEndConversation (mode : String) (st : DialogueState) : Bool :=
  if mode == "doctor-first" then
    decide (DOCTOR_PATIENT_MAX_LENGTH ≤ st.turns.length)
  else
    decide (MAX_DIALOGUE_LENGTH ≤ st.turns.length)

/-- Embedding of `DialogueManager.get_last_message`. -/
def getLastMessage (st : DialogueState) : Option ConversationTurn :=
  st.turns.getLast?

/-- Embedding of `DialogueManager.contains_goodbye`: the last message exists, was
spoken by the counselor, and contains `"再见"`. -/
def containsGoodbye (st : DialogueState) : Bool :=
  match getLastMessage st with
  | some t => t.role == "咨询师" && strHas t.content "再见"
  | none => false

/-- Embedding of `ConversationSession.should_end_session`. -/
def shouldEndSession (mode : String) (st : DialogueState) : Bool :=
  containsGoodbye st || shouldEndConversation mode st

/-! ### Reasoning engine data model (src/reasoning_engine.py) -/

/-- Source dataclass `ReasoningResult` (the spec's EvaluationVerdict). -/
structure ReasoningResult where
  conclusion : String
  improvement_suggestion : String
  current_stage : String
  reasoning_content : String
  raw_response : String
  is_valid : Bool := true
  error_message : Option String := none
deriving DecidableEq, Repr, Inhabited

/-- Source dataclass `ModificationRecord` (the spec's RevisionAttempt). -/
structure ModificationRecord where
  attempt_number : Nat
  original_content : String
  improvement_suggestion : String
  modified_content : Option String := none
  reasoning_result : Option ReasoningResult := none
deriving DecidableEq, Repr, Inhabited

/-- The numbered history items built inside
`ReasoningEngine.create_modification_prompt`: earlier records are
rendered `第i次修改请求: …` and the final record `当前修改请求: …`.
The counter `i` is the 1-based position of the head record. -/
def modItems : Nat → List ModificationRecord → List String
  | _, [] => []
  | _, [r] => ["当前修改请求: " ++ r.improvement_suggestion]
  | i, r :: rs => ("第" ++ toString i ++ "次修改请求: " ++ r.improvement_suggestion)
      :: modItems (i + 1) rs

/-- Embedding of `ReasoningEngine.create_modification_prompt`. -/
def createModificationPrompt (modifyHistory : List ModificationRecord)
    (originalResponse : String) : String :=
  match modifyHistory with
  | [] => ""
  | _ =>
    "请按照修改请求的历史记录 " ++
      String.intercalate "; " (modItems 1 modifyHistory) ++
      "。和对话历史，修改当前回复：" ++ originalResponse

/-! ### Evaluator-output parser (src/reasoning_engine.py, _parse_reasoning_response)

The source extracts three fields with `re.findall` (taking the first
match) and, when both the conclusion pattern and the suggestion pattern
fail, falls back to coarse heuristics built on Python's `in` operator
and `re.search`.  The concrete patterns are

  conclusion:  `"结论"\s*:\s*(".*?"|\S+?)(?=\s*[,}])`
  suggestion:  `"改进意见"\s*:\s*(".*?"|\S.*?)(?=\s*,\s*"所处阶段"|\s*}|\s*$)`
  stage:       `"所处阶段"\s*:\s*(".*?"|\S.*?)(?=\s*[,}]|\s*$)`

all with `re.DOTALL`.  They are embedded below by direct operational
reading: leftmost match wins, alternatives are tried left to right,
non-greedy pieces grow minimally, and a lookahead of the shape
`\s*X` holds exactly when skipping the maximal whitespace run lands on
`X` (whitespace is modelled as the ASCII whitespace characters, which
covers every text the theorems evaluate).  The loose fallback patterns
are `改进意见[：:]\s*([^,}]+)` and `所处阶段[：:]\s*([^,}]+)` under
`re.search`. -/

/-- Python `\s` on the ASCII range. -/
def isWsChar (c : Char) : Bool :=
  c == ' ' || c == '\t' || c == '\n' || c == '\r' || c == '\x0b' || c == '\x0c'

/-- Drop the maximal leading whitespace run. -/
def skipWs (cs : List Char) : List Char := cs.dropWhile isWsChar

/-- Lookahead `(?=\s*[,}])`. -/
def lookDelim (cs : List Char) : Bool :=
  match skipWs cs with
  | ',' :: _ => true
  | '}' :: _ => true
  | _ => false

/-- Lookahead `(?=\s*[,}]|\s*$)`. -/
def lookDelimEnd (cs : List Char) : Bool :=
  lookDelim cs || (skipWs cs).isEmpty

/-- Lookahead `(?=\s*,\s*"所处阶段"|\s*}|\s*$)`. -/
def lookSuggestionEnd (cs : List Char) : Bool :=
  match skipWs cs with
  | ',' :: r => charsBegin "\"所处阶段\"".toList (skipWs r)
  | '}' :: _ => true
  | [] => true
  | _ => false

/-- The non-greedy body of the quoted alternative `".*?"` followed by a
lookahead: after the opening quote, consume minimally many characters
(any character, `re.DOTALL`) until a closing quote whose continuation
satisfies the lookahead; returns the characters between the quotes. -/
def quotedMin (look : List Char → Bool) : List Char → Option (List Char)
  | [] => none
  | c :: rest =>
    if c == '"' && look rest then some []
    else (quotedMin look rest).map (c :: ·)

/-- The alternative `\S+?` followed by a lookahead: a minimal nonempty
run of non-whitespace characters whose continuation satisfies the
lookahead. -/
def nonWsMin (look : List Char → Bool) : List Char → Option (List Char)
  | [] => none
  | c :: rest =>
    if isWsChar c then none
    else if look rest then some [c]
    else (nonWsMin look rest).map (c :: ·)

/-- The non-greedy tail `.*?` followed by a lookahead: consume minimally
many characters (any character, `re.DOTALL`) until the lookahead holds. -/
def dotMin (look : List Char → Bool) : List Char → Option (List Char)
  | [] => if look [] then some [] else none
  | c :: rest =>
    if look (c :: rest) then some []
    else (dotMin look rest).map (c :: ·)

/-- The alternative `\S.*?` followed by a lookahead: one non-whitespace
character, then a minimal arbitrary tail until the lookahead holds. -/
def anyMin (look : List Char → Bool) : List Char → Option (List Char)
  | [] => none
  | c :: rest =>
    if isWsChar c then none
    else (dotMin look rest).map (c :: ·)

/-- The captured group of the conclusion pattern,
`(".*?"|\S+?)(?=\s*[,}])`: the quoted alternative is tried first (the
group keeps its quotes, as in the source, where `strip` removes them
later), then `\S+?`. -/
def valConclusion (cs : List Char) : Option (List Char) :=
  match cs with
  | '"' :: rest =>
    match quotedMin lookDelim rest with
    | some inner => some ('"' :: (inner ++ ['"']))
    | none => nonWsMin lookDelim cs
  | _ => nonWsMin lookDelim cs

/-- The captured group of the suggestion pattern,
`(".*?"|\S.*?)(?=\s*,\s*"所处阶段"|\s*}|\s*$)`. -/
def valSuggestion (cs : List Char) : Option (List Char) :=
  match cs with
  | '"' :: rest =>
    match quotedMin lookSuggestionEnd rest with
    | some inner => some ('"' :: (inner ++ ['"']))
    | none => anyMin lookSuggestionEnd cs
  | _ => anyMin lookSuggestionEnd cs

/-- The captured group of the stage pattern,
`(".*?"|\S.*?)(?=\s*[,}]|\s*$)`. -/
def valStage (cs : List Char) : Option (List Char) :=
  match cs with
  | '"' :: rest =>
    match quotedMin lookDelimEnd rest with
    | some inner => some ('"' :: (inner ++ ['"']))
    | none => anyMin lookDelimEnd cs
  | _ => anyMin lookDelimEnd cs

/-- Try one strict field pattern at the current position: the quoted
field literal, `\s*`, a colon, `\s*`, then the value group (both value
alternatives start with a non-whitespace character, so the group starts
exactly where the maximal whitespace run ends). -/
def attemptField (lit : List Char) (valFn : List Char → Option (List Char))
    (cs : List Char) : Option (List Char) :=
  if charsBegin lit cs then
    match skipWs (cs.drop lit.length) with
    | ':' :: r => valFn (skipWs r)
    | _ => none
  else none

/-- Leftmost-match scan of a strict field pattern, as `re.findall`'s
first result. -/
def scanField (lit : List Char) (valFn : List Char → Option (List Char)) :
    List Char → Option (List Char)
  | [] => none
  | c :: rest =>
    match attemptField lit valFn (c :: rest) with
    | some v => some v
    | none => scanField lit valFn rest

/-- Python `str.strip()` (both ends, ASCII whitespace). -/
def pyStrip (s : String) : String :=
  ⟨((s.toList.dropWhile isWsChar).reverse.dropWhile isWsChar).reverse⟩

/-- Python `str.strip('"')`. -/
def pyStripQuotes (s : String) : String :=
  ⟨((s.toList.dropWhile (· == '"')).reverse.dropWhile (· == '"')).reverse⟩

/-- First match of the strict conclusion pattern, already passed through
`.strip().strip('"')` as in the source. -/
def strictConclusion (content : String) : Option String :=
  (scanField "\"结论\"".toList valConclusion content.toList).map
    (fun g => pyStripQuotes (pyStrip ⟨g⟩))

/-- First match of the strict suggestion pattern, stripped as in the
source. -/
def strictSuggestion (content : String) : Option String :=
  (scanField "\"改进意见\"".toList valSuggestion content.toList).map
    (fun g => pyStripQuotes (pyStrip ⟨g⟩))

/-- First match of the strict stage pattern, stripped as in the source. -/
def strictStage (content : String) : Option String :=
  (scanField "\"所处阶段\"".toList valStage content.toList).map
    (fun g => pyStripQuotes (pyStrip ⟨g⟩))

/-- The group `\s*([^,}]+)` of the loose fallback patterns, applied to
the text after the colon.  `\s*` grows greedily and backs off one
character when the remainder would leave the group empty, so: if a
non-delimiter follows the whitespace run the group is the maximal
delimiter-free run from there; otherwise, when at least one whitespace
character was available, the group is the last whitespace character
alone; otherwise the position fails. -/
def looseValue (t : List Char) : Option (List Char) :=
  let rest := t.dropWhile isWsChar
  match rest with
  | [] =>
    match (t.takeWhile isWsChar).getLast? with
    | some w => some [w]
    | none => none
  | c :: _ =>
    if c == ',' || c == '}' then
      match (t.takeWhile isWsChar).getLast? with
      | some w => some [w]
      | none => none
    else
      some (rest.takeWhile (fun d => !(d == ',' || d == '}')))

/-- Try one loose pattern `LIT[：:]\s*([^,}]+)` at the current position. -/
def attemptLoose (lit : List Char) (cs : List Char) : Option (List Char) :=
  if charsBegin lit cs then
    match cs.drop lit.length with
    | c :: r => if c == '：' || c == ':' then looseValue r else none
    | [] => none
  else none

/-- Leftmost-match scan for a loose pattern, as `re.search`. -/
def scanLoose (lit : List Char) : List Char → Option (List Char)
  | [] => none
  | c :: rest =>
    match attemptLoose lit (c :: rest) with
    | some v => some v
    | none => scanLoose lit rest

/-- Embedding of `re.search(LIT + '[：:]\s*([^,}]+)', content)` followed by
`.group(1).strip()`. -/
def looseSearch (lit content : String) : Option String :=
  (scanLoose lit.toList content.toList).map (fun g => pyStrip ⟨g⟩)

/-- Embedding of `ReasoningEngine._parse_reasoning_response`.  Total by construction:
every input yields a `ReasoningResult` (the source never raises on any
text either — `re.findall`/`re.search` cannot fail).  The strict branch
is taken when the conclusion or the suggestion pattern matched; the
fallback branch re-derives all three fields with the coarse heuristics
and marks the result invalid. -/
def parseReasoningResponse (content reasoningContent : String) : ReasoningResult :=
  let conclusionM := strictConclusion content
  let suggestionM := strictSuggestion content
  let stageM := strictStage content
  if conclusionM.isSome || suggestionM.isSome then
    { conclusion := conclusionM.getD "否",
      improvement_suggestion := suggestionM.getD "需要进一步改进回复内容",
      current_stage := stageM.getD "未识别",
      reasoning_content := reasoningContent,
      raw_response := content,
      is_valid := true,
      error_message := none }
  else
    { conclusion :=
        if strHas content "结论" then
          if strHas content "是" then "是" else "否"
        else "否",
      improvement_suggestion :=
        if strHas content "改进意见" then
          (looseSearch "改进意见" content).getD "需要进一步改进回复内容"
        else "需要进一步改进回复内容",
      current_stage :=
        if strHas content "所处阶段" then
          (looseSearch "所处阶段" content).getD "未识别"
        else "未识别",
      reasoning_content := reasoningContent,
      raw_response := content,
      is_valid := false,
      error_message := some "Failed to parse with strict pattern" }

/-! ### Counselor revision loop (src/agents.py, CounselorAgent.generate_response)

The draft generator (`_generate_counselor_response`, an LLM call keyed
by the modification-suggestion string it is given) is the parameter
`gen`; the evaluator (`ReasoningEngine.evaluate_response`, one LLM call
per evaluation) is the parameter `ev`, indexed by how many evaluations
have been performed so far, so that the theorems quantify over every
possible sequence of verdicts.  The style-smoothing pass
(`CounselorResponseEnhancer.enhance_response`) applied to the already
accepted draft is an excluded collaborator per the specification's
scope, so the loop result records the accepted draft itself.  Besides
the fields the source keeps (`current_response`, `reasoning_history`,
`modification_history`), the result records the modification prompt
passed to `gen` on each revision pass and every generated draft
(attempt 0 first), so that claims about what the code hands its
collaborators can be stated. -/

/-- Result of one run of the counselor revision loop. -/
structure CounselorLoopResult where
  final_response : String
  reasoning_history : List ReasoningResult
  modification_history : List ModificationRecord
  modification_prompts : List String
  generated_drafts : List String
deriving DecidableEq, Repr, Inhabited

/-- The `while True` body of `CounselorAgent.generate_response`.  The
source loop increments `revising_flag` on every revision pass and
breaks as soon as the verdict contains `"是"` or the flag has reached
the attempt cap, so it runs at most `cap + 1` iterations; the `fuel`
argument makes that bound the structural recursion measure, and
`generateResponseLoop` supplies `cap + 1`, which the invariant
`revisingFlag ≤ cap` keeps from ever running out (the fuel-exhausted
branch is unreachable from the entry point). -/
def generateLoopAux (cap : Nat) (gen : String → String)
    (ev : Nat → ReasoningResult) :
    Nat → Nat → String → List ModificationRecord → List ReasoningResult →
    List String → List String → CounselorLoopResult
  | 0, _, currentResponse, mods, reas, prompts, drafts =>
    ⟨currentResponse, reas, mods, prompts, drafts⟩
  | fuel + 1, revisingFlag, currentResponse, mods, reas, prompts, drafts =>
    let result := ev reas.length
    let reasoningHistory := reas ++ [result]
    if strHas result.conclusion "是" = true ∨ cap ≤ revisingFlag then
      ⟨currentResponse, reasoningHistory, mods, prompts, drafts⟩
    else
      let record : ModificationRecord :=
        { attempt_number := revisingFlag + 1,
          original_content := currentResponse,
          improvement_suggestion := result.improvement_suggestion,
          modified_content := none,
          reasoning_result := some result }
      let modificationHistory := mods ++ [record]
      let modificationSuggestion :=
        createModificationPrompt modificationHistory currentResponse
      let nextResponse := gen modificationSuggestion
      generateLoopAux cap gen ev fuel (revisingFlag + 1) nextResponse
        modificationHistory reasoningHistory
        (prompts ++ [modificationSuggestion]) (drafts ++ [nextResponse])

/-- Embedding of `CounselorAgent.generate_response`: generate the attempt-0 draft
with an empty modification suggestion, then run the
evaluate-and-revise loop with `revising_flag = 0`. -/
def generateResponseLoop (cap : Nat) (gen : String → String)
    (ev : Nat → ReasoningResult) : CounselorLoopResult :=
  generateLoopAux cap gen ev (cap + 1) 0 (gen "") [] [] [] [gen ""]

/-! ### Concrete instances used by witnesses and counterexamples -/

/-- A deterministic stand-in for the LLM summarization collaborator. -/
def wSumGen : List ConversationTurn → String := fun _ => "SUM"

/-- A deterministic stand-in for Python's `str` rendering collaborator. -/
def wRender : List (String × String) → String := fun _ => "R"

/-- A client turn used to build concrete dialogue states. -/
def wClientTurn : ConversationTurn := ⟨"求助者", "x"⟩

/-- A dialogue state with 12 turns (below the summary start threshold,
not a trigger count). -/
def wState12 : DialogueState := ⟨List.replicate 12 wClientTurn, [], ""⟩

/-- A dialogue state with 13 turns (exactly the summary start
threshold, a trigger count). -/
def wState13 : DialogueState := ⟨List.replicate 13 wClientTurn, [], ""⟩

/-- A single-turn history used by the role-projection witness. -/
def wTurnsOne : List ConversationTurn := [⟨"求助者", "hi"⟩]

/-- A deterministic stand-in for the draft generator: the attempt-0
draft (empty guidance) is `"A"`, every regenerated draft is `"B"`. -/
def wGen : String → String := fun s => if s == "" then "A" else "B"

/-- An evaluator that rejects every draft. -/
def wRejEv : Nat → ReasoningResult :=
  fun _ => { conclusion := "否", improvement_suggestion := "S",
             current_stage := "阶段", reasoning_content := "", raw_response := "" }

/-- An evaluator that accepts every draft. -/
def wAccEv : Nat → ReasoningResult :=
  fun _ => { conclusion := "是", improvement_suggestion := "S",
             current_stage := "阶段", reasoning_content := "", raw_response := "" }

/-! ### Summarizer lemmas and claims -/

lemma shouldSummarize_eq_false_of_lt (st : DialogueState)
    (h : st.turns.length < SUMMARY_START_SIZE) : shouldSummarize st = false := by
  unfold shouldSummarize
  split_ifs with h1 h2
  · exact absurd (by simpa using h1) (show st.turns.length ≠ SUMMARY_START_SIZE by omega)
  · exact absurd h2 (by omega)
  · rfl

lemma start_le_of_shouldSummarize (st : DialogueState)
    (h : shouldSummarize st = true) : SUMMARY_START_SIZE ≤ st.turns.length := by
  by_contra hlt
  rw [shouldSummarize_eq_false_of_lt st (by omega)] at h
  exact Bool.false_ne_true h

lemma shouldSummarize_congr (st1 st2 : DialogueState)
    (h : st1.turns.length = st2.turns.length) :
    shouldSummarize st1 = shouldSummarize st2 := by
  unfold shouldSummarize
  rw [h]

lemma executeSummary_of_trigger (gs : List ConversationTurn → String)
    (render : List (String × String) → String) (st : DialogueState)
    (h : shouldSummarize st = true) :
    executeSummary gs render st =
      ((gs st.turns, gs st.turns),
        { st with current_summary := gs st.turns,
                  summary_history := st.summary_history ++ [gs st.turns] }) := by
  have hge := start_le_of_shouldSummarize st h
  unfold executeSummary
  rw [if_neg (by omega), if_pos h]

lemma executeSummary_of_no_trigger (gs : List ConversationTurn → String)
    (render : List (String × String) → String) (st : DialogueState)
    (h : shouldSummarize st = false) :
    (executeSummary gs render st).2 = st := by
  unfold executeSummary
  by_cases h1 : st.turns.length < SUMMARY_START_SIZE
  · rw [if_pos h1]
  · rw [if_neg h1, if_neg (show ¬(shouldSummarize st = true) by simp [h])]
    by_cases h3 : st.current_summary ≠ ""
    · rw [if_pos h3]
    · rw [if_neg h3]

/-- C5: with `S = 13` and `B = 6` the summarization trigger fires
exactly at the turn counts `13 + 6k` (13, 19, 25, …) and at no other
counts; `start_index` at `n = 16` is 13; and at every non-trigger count
above the threshold `start_index` equals the last trigger boundary
`13 + 6·⌊(n−13)/6⌋`, so the incremental window contains exactly the
turns appended since the last regeneration. -/
theorem summarizer_boundary :
    (∀ st : DialogueState, shouldSummarize st = true ↔
        ∃ k, st.turns.length = SUMMARY_START_SIZE + SUMMARY_BUFFER_SIZE * k) ∧
    startIndex 16 = 13 ∧
    (∀ n, SUMMARY_START_SIZE < n →
      (n - SUMMARY_START_SIZE) % SUMMARY_BUFFER_SIZE ≠ 0 →
      startIndex n =
        SUMMARY_START_SIZE +
          SUMMARY_BUFFER_SIZE * ((n - SUMMARY_START_SIZE) / SUMMARY_BUFFER_SIZE)) := by
  refine ⟨?_, by decide, ?_⟩
  · intro st
    have hbase : shouldSummarize st = true ↔
        (st.turns.length = 13 ∨
          (13 < st.turns.length ∧ (st.turns.length - 13) % 6 = 0)) := by
      unfold shouldSummarize SUMMARY_START_SIZE SUMMARY_BUFFER_SIZE
      by_cases h1 : st.turns.length = 13
      · simp [h1]
      · by_cases h2 : 13 < st.turns.length
        · simp [h1, h2, beq_iff_eq]
        · simp [h1, h2, beq_iff_eq]
    simp only [SUMMARY_START_SIZE, SUMMARY_BUFFER_SIZE]
    rw [hbase]
    constructor
    · rintro (h | ⟨hgt, hmod⟩)
      · exact ⟨0, by omega⟩
      · obtain ⟨k, hk⟩ := Nat.dvd_of_mod_eq_zero hmod
        exact ⟨k, by omega⟩
    · rintro ⟨k, hk⟩
      omega
  · intro n h1 h2
    simp only [SUMMARY_START_SIZE, SUMMARY_BUFFER_SIZE] at h1 h2 ⊢
    simp only [startIndex, SUMMARY_BUFFER_SIZE]
    omega

/-- Witness for the summarizer-boundary claim: the trigger fires at 13
turns and `start_index` at `n = 16` lies on the 13-turn boundary. -/
theorem summarizer_boundary_witness :
    shouldSummarize wState13 = true ∧
    startIndex 16 =
      SUMMARY_START_SIZE +
        SUMMARY_BUFFER_SIZE * ((16 - SUMMARY_START_SIZE) / SUMMARY_BUFFER_SIZE) :=
  ⟨(summarizer_boundary.1 wState13).mpr ⟨0, by decide⟩,
   summarizer_boundary.2.2 16 (by decide) (by decide)⟩

/-- C10: `execute_summary` leaves the dialogue state entirely unchanged
whenever the trigger does not fire (turn count below the threshold or
between boundaries), and a firing trigger replaces `current_summary`
and appends exactly one entry to `summary_history`; the turn list is
never touched. -/
theorem executeSummary_frame (gs : List ConversationTurn → String)
    (render : List (String × String) → String) (st : DialogueState) :
    ((executeSummary gs render st).2).turns = st.turns ∧
    (shouldSummarize st = false → (executeSummary gs render st).2 = st) ∧
    (shouldSummarize st = true →
      (executeSummary gs render st).2 =
        { st with current_summary := gs st.turns,
                  summary_history := st.summary_history ++ [gs st.turns] }) := by
  refine ⟨?_, ?_, ?_⟩
  · cases h : shouldSummarize st with
    | false => rw [executeSummary_of_no_trigger gs render st h]
    | true => rw [executeSummary_of_trigger gs render st h]
  · intro h
    exact executeSummary_of_no_trigger gs render st h
  · intro h
    rw [executeSummary_of_trigger gs render st h]

/-- Witness for the frame claim: at a 12-turn state (no trigger) the
state is returned unchanged. -/
theorem executeSummary_frame_witness :
    (executeSummary wSumGen wRender wState12).2 = wState12 :=
  (executeSummary_frame wSumGen wRender wState12).2.1 (by decide)

/-- C4 counterexample: at the trigger count 13, calling
`execute_summary` twice with no intervening turn appends a second
entry to the summary history — the second call re-triggers, because
the decision depends only on the unchanged turn count. -/
theorem executeSummary_repeat_cex :
    shouldSummarize wState13 = true ∧
    ((executeSummary wSumGen wRender
        (executeSummary wSumGen wRender wState13).2).2).summary_history =
      ["SUM", "SUM"] := by decide

/-- C4 (amended): calling the summarizer twice at the same turn count
yields the same decision (the trigger check is a function of the turn
count alone) and the same returned tuple (the generated summary reads
only the unchanged turn list), and at non-trigger counts the second
call leaves the state unchanged; but at a trigger count the call is
not idempotent — each call re-triggers, so the second call appends a
second (identical) entry to the summary history. -/
theorem executeSummary_repeat (gs : List ConversationTurn → String)
    (render : List (String × String) → String) (st : DialogueState) :
    (executeSummary gs render (executeSummary gs render st).2).1 =
      (executeSummary gs render st).1 ∧
    shouldSummarize (executeSummary gs render st).2 = shouldSummarize st ∧
    (shouldSummarize st = false →
      (executeSummary gs render (executeSummary gs render st).2).2 = st) ∧
    (shouldSummarize st = true →
      ((executeSummary gs render (executeSummary gs render st).2).2).summary_history =
        st.summary_history ++ [gs st.turns, gs st.turns]) := by
  have hturns : ((executeSummary gs render st).2).turns = st.turns :=
    (executeSummary_frame gs render st).1
  have hcongr : shouldSummarize (executeSummary gs render st).2 = shouldSummarize st :=
    shouldSummarize_congr _ _ (by rw [hturns])
  refine ⟨?_, hcongr, ?_, ?_⟩
  · cases h : shouldSummarize st with
    | false => rw [executeSummary_of_no_trigger gs render st h]
    | true =>
      rw [executeSummary_of_trigger gs render st h]
      have h2 : shouldSummarize
          ({ st with current_summary := gs st.turns,
                     summary_history := st.summary_history ++ [gs st.turns] } :
            DialogueState) = true := h
      rw [executeSummary_of_trigger gs render _ h2]
  · intro h
    rw [executeSummary_of_no_trigger gs render st h,
      executeSummary_of_no_trigger gs render st h]
  · intro h
    rw [executeSummary_of_trigger gs render st h]
    have h2 : shouldSummarize
        ({ st with current_summary := gs st.turns,
                   summary_history := st.summary_history ++ [gs st.turns] } :
          DialogueState) = true := h
    rw [executeSummary_of_trigger gs render _ h2]
    simp

/-- Witness for the amended repeat-call claim, at the 13-turn trigger
state: the two calls together append two identical entries. -/
theorem executeSummary_repeat_witness :
    ((executeSummary wSumGen wRender
        (executeSummary wSumGen wRender wState13).2).2).summary_history =
      wState13.summary_history ++ [wSumGen wState13.turns, wSumGen wState13.turns] :=
  (executeSummary_repeat wSumGen wRender wState13).2.2.2 (by decide)

/-! ### Session-end claim -/

/-- C7: the session-end check returns true exactly when the most recent
turn is a counselor turn containing the goodbye token, or the turn
count has reached the mode's ceiling (50 in doctor-first mode, the
short `MAX_DIALOGUE_LENGTH` otherwise); and a goodbye in a most-recent
non-counselor turn never ends a session below the ceiling (a goodbye
in any earlier turn is never even examined, since only the last turn is
inspected). -/
theorem session_end_iff (mode : String) (st : DialogueState) :
    (shouldEndSession mode st = true ↔
      ((∃ t, st.turns.getLast? = some t ∧ t.role = "咨询师" ∧
          strHas t.content "再见" = true) ∨
        (if mode == "doctor-first" then DOCTOR_PATIENT_MAX_LENGTH
          else MAX_DIALOGUE_LENGTH) ≤ st.turns.length)) ∧
    (∀ t, st.turns.getLast? = some t → t.role ≠ "咨询师" →
      st.turns.length < (if mode == "doctor-first" then DOCTOR_PATIENT_MAX_LENGTH
        else MAX_DIALOGUE_LENGTH) →
      shouldEndSession mode st = false) := by
  have hconv : shouldEndConversation mode st = true ↔
      (if mode == "doctor-first" then DOCTOR_PATIENT_MAX_LENGTH
        else MAX_DIALOGUE_LENGTH) ≤ st.turns.length := by
    unfold shouldEndConversation
    by_cases hm : mode == "doctor-first"
    · rw [if_pos hm, if_pos hm]
      simp
    · rw [if_neg hm, if_neg hm]
      simp
  have hbye : containsGoodbye st = true ↔
      ∃ t, st.turns.getLast? = some t ∧ t.role = "咨询师" ∧
        strHas t.content "再见" = true := by
    unfold containsGoodbye getLastMessage
    cases hl : st.turns.getLast? with
    | none => simp
    | some t => simp [Bool.and_eq_true, beq_iff_eq]
  constructor
  · unfold shouldEndSession
    rw [Bool.or_eq_true, hconv, hbye]
  · intro t hlast hrole hlen
    unfold shouldEndSession
    rw [Bool.or_eq_false_iff]
    constructor
    · rw [← Bool.not_eq_true, hbye]
      rintro ⟨u, hu, hurole, -⟩
      rw [hlast] at hu
      exact hrole (by cases hu; exact hurole)
    · rw [← Bool.not_eq_true, hconv]
      omega

/-- Witness for the session-end claim: a goodbye token spoken by the
client does not end a patient-first session of one turn. -/
theorem session_end_iff_witness :
    shouldEndSession "patient-first" ⟨[⟨"求助者", "再见"⟩], [], ""⟩ = false :=
  (session_end_iff "patient-first" ⟨[⟨"求助者", "再见"⟩], [], ""⟩).2
    ⟨"求助者", "再见"⟩ (by decide) (by decide) (by decide)

/-! ### Role-projection lemmas and claim -/

lemma toOpenaiFormatAux_length (identity : String) :
    ∀ (ts : List ConversationTurn) (i : Nat),
      (toOpenaiFormatAux identity i ts).length = ts.length := by
  intro ts
  induction ts with
  | nil => intro i; rfl
  | cons t ts ih => intro i; simp [toOpenaiFormatAux, ih]

lemma toOpenaiFormatAux_getD (identity : String) :
    ∀ (ts : List ConversationTurn) (i j : Nat), j < ts.length →
      (toOpenaiFormatAux identity i ts).getD j default =
        openaiMsgFor identity (i + j) (ts.getD j default) := by
  intro ts
  induction ts with
  | nil => intro i j h; simp at h
  | cons t ts ih =>
    intro i j h
    cases j with
    | zero => simp [toOpenaiFormatAux]
    | succ j =>
      simp only [toOpenaiFormatAux, List.getD_cons_succ]
      rw [ih (i + 1) j (by simpa using h)]
      congr 1
      omega

lemma toDoctorFirstFormatAux_length (identity : String) :
    ∀ (ts : List ConversationTurn) (i : Nat),
      (toDoctorFirstFormatAux identity i ts).length = ts.length := by
  intro ts
  induction ts with
  | nil => intro i; rfl
  | cons t ts ih => intro i; simp [toDoctorFirstFormatAux, ih]

lemma toDoctorFirstFormatAux_getD (identity : String) :
    ∀ (ts : List ConversationTurn) (i j : Nat), j < ts.length →
      (toDoctorFirstFormatAux identity i ts).getD j default =
        doctorFirstMsgFor identity (i + j) (ts.getD j default) := by
  intro ts
  induction ts with
  | nil => intro i j h; simp at h
  | cons t ts ih =>
    intro i j h
    cases j with
    | zero => simp [toDoctorFirstFormatAux]
    | succ j =>
      simp only [toDoctorFirstFormatAux, List.getD_cons_succ]
      rw [ih (i + 1) j (by simpa using h)]
      congr 1
      omega

lemma openaiMsgFor_spec (identity : String) (i : Nat) (t : ConversationTurn) :
    (openaiMsgFor identity i t).content = t.content ∧
    ((openaiMsgFor identity i t).role = "assistant" ∨
      (openaiMsgFor identity i t).role = "user") ∧
    ((openaiMsgFor identity i t).role = "assistant" ↔
      ((t.role = specExpectedSpeaker "patient-first" i) ↔
        (specExpectedSpeaker "patient-first" i = specOwnRole identity))) := by
  have hm : (("patient-first" : String) == "doctor-first") = false := by decide
  unfold openaiMsgFor specExpectedSpeaker specOwnRole
  rw [hm]
  by_cases hd : identity == "Doctor" <;>
    by_cases hp : i % 2 == 0 <;>
      simp only [hd, hp, if_true, if_false, Bool.false_eq_true, if_neg, if_pos] <;>
        by_cases hr1 : t.role == "求助者" <;>
          by_cases hr2 : t.role == "咨询师" <;>
            simp_all [beq_iff_eq]

lemma doctorFirstMsgFor_spec (identity : String) (i : Nat) (t : ConversationTurn) :
    (doctorFirstMsgFor identity i t).content = t.content ∧
    ((doctorFirstMsgFor identity i t).role = "assistant" ∨
      (doctorFirstMsgFor identity i t).role = "user") ∧
    ((doctorFirstMsgFor identity i t).role = "assistant" ↔
      ((t.role = specExpectedSpeaker "doctor-first" i) ↔
        (specExpectedSpeaker "doctor-first" i = specOwnRole identity))) := by
  have hm : (("doctor-first" : String) == "doctor-first") = true := by decide
  unfold doctorFirstMsgFor specExpectedSpeaker specOwnRole
  rw [hm]
  by_cases hd : identity == "Doctor" <;>
    by_cases hp : i % 2 == 0 <;>
      simp only [hd, hp, if_true, if_false, Bool.false_eq_true, if_neg, if_pos] <;>
        by_cases hr1 : t.role == "求助者" <;>
          by_cases hr2 : t.role == "咨询师" <;>
            simp_all [beq_iff_eq]

/-- C6 counterexample: with identity `Doctor` in patient-first mode, a
single turn whose role string matches neither party is nonetheless
labeled `"assistant"` (the requester's own message), so a turn is not
labeled `"assistant"` exactly when its role matches the expected
speaker — an anomalous role at the counterpart's parity slot receives
`"assistant"` although it matches no expected speaker. -/
theorem role_projection_cex :
    getOpenaiMessages "patient-first" "Doctor" [⟨"陌生人", "hi"⟩] =
      [⟨"assistant", "hi"⟩] ∧
    ("陌生人" : String) ≠ "咨询师" ∧ ("陌生人" : String) ≠ "求助者" := by
  decide

/-- C6 (amended): for every turn history (anomalous role sequences
included) and all four (identity, mode) combinations, role projection
is total, returns one message per turn in the same order with the
content preserved, labels every turn `"assistant"` or `"user"`, and
labels a turn `"assistant"` exactly when [the turn's role matches the
parity table's expected speaker at its index] coincides with [that
expected speaker being the requester's own role] — so for the two
well-formed role strings this is "role equals the requester's own
role", while a role matching neither party is labeled `"assistant"`
precisely at the counterpart's parity slots. -/
theorem role_projection_spec (mode identity : String)
    (turns : List ConversationTurn) :
    (getOpenaiMessages mode identity turns).length = turns.length ∧
    ∀ j, j < turns.length →
      ((getOpenaiMessages mode identity turns).getD j default).content =
        (turns.getD j default).content ∧
      (((getOpenaiMessages mode identity turns).getD j default).role = "assistant" ∨
        ((getOpenaiMessages mode identity turns).getD j default).role = "user") ∧
      (((getOpenaiMessages mode identity turns).getD j default).role = "assistant" ↔
        ((turns.getD j default).role = specExpectedSpeaker mode j ↔
          specExpectedSpeaker mode j = specOwnRole identity)) := by
  by_cases hm : mode == "doctor-first"
  · have hdisp : getOpenaiMessages mode identity turns =
        toDoctorFirstFormatAux identity 0 turns := by
      unfold getOpenaiMessages toDoctorFirstFormat
      rw [if_pos hm]
    have hspk : ∀ j, specExpectedSpeaker mode j = specExpectedSpeaker "doctor-first" j := by
      intro j
      unfold specExpectedSpeaker
      rw [hm]
      rfl
    refine ⟨by rw [hdisp, toDoctorFirstFormatAux_length], ?_⟩
    intro j hj
    rw [hdisp, toDoctorFirstFormatAux_getD identity turns 0 j hj, hspk j]
    simpa using doctorFirstMsgFor_spec identity j (turns.getD j default)
  · have hdisp : getOpenaiMessages mode identity turns =
        toOpenaiFormatAux identity 0 turns := by
      unfold getOpenaiMessages toOpenaiFormat
      rw [if_neg (by simpa using hm)]
    have hspk : ∀ j, specExpectedSpeaker mode j = specExpectedSpeaker "patient-first" j := by
      intro j
      unfold specExpectedSpeaker
      rw [if_neg hm]
      rw [if_neg (show ¬(("patient-first" : String) == "doctor-first") = true by decide)]
    refine ⟨by rw [hdisp, toOpenaiFormatAux_length], ?_⟩
    intro j hj
    rw [hdisp, toOpenaiFormatAux_getD identity turns 0 j hj, hspk j]
    simpa using openaiMsgFor_spec identity j (turns.getD j default)

/-- Witness for the amended role-projection claim: a well-formed
single-turn history in patient-first mode projected for the doctor. -/
theorem role_projection_spec_witness :
    ((getOpenaiMessages "patient-first" "Doctor" wTurnsOne).getD 0 default).content =
      (wTurnsOne.getD 0 default).content :=
  ((role_projection_spec "patient-first" "Doctor" wTurnsOne).2 0 (by decide)).1

/-! ### Revision-loop invariant

One induction over the loop fuel establishes every structural fact the
revision-loop claims need: the output lists extend the input lists, the
modification count never exceeds the cap, exactly one evaluation is
recorded per loop iteration (so one more evaluation than revision), one
prompt and one regenerated draft exist per revision, the final response
is the last generated draft, every recorded prompt was built by
`createModificationPrompt` from the records so far and the draft that
had just been evaluated, and an always-rejecting evaluator drives the
loop to the full cap. -/

lemma generateLoopAux_spec (cap : Nat) (gen : String → String)
    (ev : Nat → ReasoningResult) :
    ∀ (fuel flag : Nat) (cur : String) (mods : List ModificationRecord)
      (reas : List ReasoningResult) (prompts drafts : List String),
      fuel + flag = cap + 1 → flag ≤ cap →
      mods.length = flag → reas.length = flag → prompts.length = flag →
      drafts.length = flag + 1 → cur = drafts.getD flag "" →
      (∀ j, j < flag → prompts.getD j "" =
        createModificationPrompt (mods.take (j + 1)) (drafts.getD j "")) →
      ∃ tailM tailD,
        (generateLoopAux cap gen ev fuel flag cur mods reas prompts drafts).modification_history = mods ++ tailM ∧
        (generateLoopAux cap gen ev fuel flag cur mods reas prompts drafts).generated_drafts = drafts ++ tailD ∧
        flag ≤ (generateLoopAux cap gen ev fuel flag cur mods reas prompts drafts).modification_history.length ∧
        (generateLoopAux cap gen ev fuel flag cur mods reas prompts drafts).modification_history.length ≤ cap ∧
        (generateLoopAux cap gen ev fuel flag cur mods reas prompts drafts).reasoning_history.length =
          (generateLoopAux cap gen ev fuel flag cur mods reas prompts drafts).modification_history.length + 1 ∧
        (generateLoopAux cap gen ev fuel flag cur mods reas prompts drafts).modification_prompts.length =
          (generateLoopAux cap gen ev fuel flag cur mods reas prompts drafts).modification_history.length ∧
        (generateLoopAux cap gen ev fuel flag cur mods reas prompts drafts).generated_drafts.length =
          (generateLoopAux cap gen ev fuel flag cur mods reas prompts drafts).modification_history.length + 1 ∧
        (generateLoopAux cap gen ev fuel flag cur mods reas prompts drafts).final_response =
          (generateLoopAux cap gen ev fuel flag cur mods reas prompts drafts).generated_drafts.getD
            (generateLoopAux cap gen ev fuel flag cur mods reas prompts drafts).modification_history.length "" ∧
        (∀ j, j < (generateLoopAux cap gen ev fuel flag cur mods reas prompts drafts).modification_prompts.length →
          (generateLoopAux cap gen ev fuel flag cur mods reas prompts drafts).modification_prompts.getD j "" =
            createModificationPrompt
              ((generateLoopAux cap gen ev fuel flag cur mods reas prompts drafts).modification_history.take (j + 1))
              ((generateLoopAux cap gen ev fuel flag cur mods reas prompts drafts).generated_drafts.getD j "")) ∧
        ((∀ k, strHas (ev k).conclusion "是" = false) →
          (generateLoopAux cap gen ev fuel flag cur mods reas prompts drafts).modification_history.length = cap) := by
  intro fuel
  induction fuel with
  | zero =>
    intro flag cur mods reas prompts drafts hfuel hle hm hr hp hd hc hinv
    exact absurd hfuel (by omega)
  | succ fuel ih =>
    intro flag cur mods reas prompts drafts hfuel hle hm hr hp hd hc hinv
    by_cases hcond : strHas (ev reas.length).conclusion "是" = true ∨ cap ≤ flag
    · have hout : generateLoopAux cap gen ev (fuel + 1) flag cur mods reas prompts drafts =
          ⟨cur, reas ++ [ev reas.length], mods, prompts, drafts⟩ := by
        simp only [generateLoopAux]
        rw [if_pos hcond]
      rw [hout]
      dsimp only
      refine ⟨[], [], by simp, by simp, ?_, ?_, ?_, ?_, ?_, ?_, ?_, ?_⟩
      · simp [hm]
      · omega
      · simp [hm, hr]
      · simp [hm, hp]
      · simp [hm, hd]
      · rw [hm]
        exact hc
      · intro j hj
        exact hinv j (by omega)
      · intro hrej
        rcases hcond with hacc | hge
        · rw [hrej reas.length] at hacc
          exact absurd hacc (by simp)
        · simp only [hm]
          omega
    · push_neg at hcond
      obtain ⟨hacc, hflag⟩ := hcond
      have hstep : generateLoopAux cap gen ev (fuel + 1) flag cur mods reas prompts drafts =
          generateLoopAux cap gen ev fuel (flag + 1)
            (gen (createModificationPrompt
              (mods ++ [{ attempt_number := flag + 1, original_content := cur,
                          improvement_suggestion := (ev reas.length).improvement_suggestion,
                          modified_content := none,
                          reasoning_result := some (ev reas.length) }]) cur))
            (mods ++ [{ attempt_number := flag + 1, original_content := cur,
                        improvement_suggestion := (ev reas.length).improvement_suggestion,
                        modified_content := none,
                        reasoning_result := some (ev reas.length) }])
            (reas ++ [ev reas.length])
            (prompts ++ [createModificationPrompt
              (mods ++ [{ attempt_number := flag + 1, original_content := cur,
                          improvement_suggestion := (ev reas.length).improvement_suggestion,
                          modified_content := none,
                          reasoning_result := some (ev reas.length) }]) cur])
            (drafts ++ [gen (createModificationPrompt
              (mods ++ [{ attempt_number := flag + 1, original_content := cur,
                          improvement_suggestion := (ev reas.length).improvement_suggestion,
                          modified_content := none,
                          reasoning_result := some (ev reas.length) }]) cur)]) := by
        simp only [generateLoopAux]
        rw [if_neg (by push_neg; exact ⟨hacc, hflag⟩)]
      rw [hstep]
      obtain ⟨tM, tD, h1, h2, h3, h4, h5, h6, h7, h8, h9, h10⟩ :=
        ih (flag + 1)
          (gen (createModificationPrompt
            (mods ++ [{ attempt_number := flag + 1, original_content := cur,
                        improvement_suggestion := (ev reas.length).improvement_suggestion,
                        modified_content := none,
                        reasoning_result := some (ev reas.length) }]) cur))
          (mods ++ [{ attempt_number := flag + 1, original_content := cur,
                      improvement_suggestion := (ev reas.length).improvement_suggestion,
                      modified_content := none,
                      reasoning_result := some (ev reas.length) }])
          (reas ++ [ev reas.length])
          (prompts ++ [createModificationPrompt
            (mods ++ [{ attempt_number := flag + 1, original_content := cur,
                        improvement_suggestion := (ev reas.length).improvement_suggestion,
                        modified_content := none,
                        reasoning_result := some (ev reas.length) }]) cur])
          (drafts ++ [gen (createModificationPrompt
            (mods ++ [{ attempt_number := flag + 1, original_content := cur,
                        improvement_suggestion := (ev reas.length).improvement_suggestion,
                        modified_content := none,
                        reasoning_result := some (ev reas.length) }]) cur)])
          (by omega) (by omega)
          (by simp [hm]) (by simp [hr]) (by simp [hp]) (by simp [hd])
          (by
            rw [List.getD_append_right _ _ _ _ (by simp [hd])]
            simp [hd])
          (by
            intro j hj
            rcases Nat.lt_or_ge j flag with hjlt | hjge
            · rw [List.getD_append _ _ _ _ (by omega),
                List.getD_append _ _ _ _ (by omega),
                List.take_append_of_le_length (by omega)]
              exact hinv j hjlt
            · have hjeq : j = flag := by omega
              subst hjeq
              rw [List.getD_append_right _ _ _ _ (by omega)]
              rw [List.take_of_length_le (by simp [hm])]
              rw [List.getD_append _ _ _ _ (by omega), ← hc]
              simp [hp])
      refine ⟨{ attempt_number := flag + 1, original_content := cur,
                improvement_suggestion := (ev reas.length).improvement_suggestion,
                modified_content := none,
                reasoning_result := some (ev reas.length) } :: tM,
              gen (createModificationPrompt
                (mods ++ [{ attempt_number := flag + 1, original_content := cur,
                            improvement_suggestion := (ev reas.length).improvement_suggestion,
                            modified_content := none,
                            reasoning_result := some (ev reas.length) }]) cur) :: tD,
              ?_, ?_, by omega, h4, h5, h6, h7, h8, h9, h10⟩
      · rw [h1]
        simp
      · rw [h2]
        simp

/-- The invariant instantiated at the loop entry point
(`revising_flag = 0`, empty histories, the attempt-0 draft generated
with empty guidance). -/
lemma generateResponseLoop_spec (cap : Nat) (gen : String → String)
    (ev : Nat → ReasoningResult) :
    (generateResponseLoop cap gen ev).modification_history.length ≤ cap ∧
    (generateResponseLoop cap gen ev).reasoning_history.length =
      (generateResponseLoop cap gen ev).modification_history.length + 1 ∧
    (generateResponseLoop cap gen ev).modification_prompts.length =
      (generateResponseLoop cap gen ev).modification_history.length ∧
    (generateResponseLoop cap gen ev).generated_drafts.length =
      (generateResponseLoop cap gen ev).modification_history.length + 1 ∧
    (generateResponseLoop cap gen ev).final_response =
      (generateResponseLoop cap gen ev).generated_drafts.getD
        (generateResponseLoop cap gen ev).modification_history.length "" ∧
    (generateResponseLoop cap gen ev).generated_drafts.getD 0 "" = gen "" ∧
    (∀ j, j < (generateResponseLoop cap gen ev).modification_prompts.length →
      (generateResponseLoop cap gen ev).modification_prompts.getD j "" =
        createModificationPrompt
          ((generateResponseLoop cap gen ev).modification_history.take (j + 1))
          ((generateResponseLoop cap gen ev).generated_drafts.getD j "")) ∧
    ((∀ k, strHas (ev k).conclusion "是" = false) →
      (generateResponseLoop cap gen ev).modification_history.length = cap) := by
  obtain ⟨tM, tD, h1, h2, h3, h4, h5, h6, h7, h8, h9, h10⟩ :=
    generateLoopAux_spec cap gen ev (cap + 1) 0 (gen "") [] [] [] [gen ""]
      (by omega) (by omega) rfl rfl rfl rfl (by simp)
      (by intro j hj; exact absurd hj (Nat.not_lt_zero j))
  unfold generateResponseLoop
  refine ⟨h4, h5, h6, h7, h8, ?_, h9, h10⟩
  rw [h2]
  simp

/-- C1: for every modification cap `C ≥ 1` and every sequence of
evaluator verdicts, the counselor revision loop terminates (it is a
total function of its inputs), performs at most `C + 1` evaluations —
the loop records exactly one `ReasoningResult` per evaluation performed
— and the recorded reasoning-result list therefore has length at most
`C + 1`. -/
theorem revision_loop_eval_bound (cap : Nat) (_hcap : 1 ≤ cap)
    (gen : String → String) (ev : Nat → ReasoningResult) :
    (generateResponseLoop cap gen ev).reasoning_history.length ≤ cap + 1 ∧
    (generateResponseLoop cap gen ev).modification_history.length ≤ cap := by
  obtain ⟨hle, hreas, -⟩ := generateResponseLoop_spec cap gen ev
  exact ⟨by omega, hle⟩

/-- Witness for the evaluation-bound claim at the configured cap of 3,
with an always-rejecting evaluator. -/
theorem revision_loop_eval_bound_witness :
    (generateResponseLoop MAX_MODIFICATION_ATTEMPTS wGen wRejEv).reasoning_history.length ≤
      MAX_MODIFICATION_ATTEMPTS + 1 ∧
    (generateResponseLoop MAX_MODIFICATION_ATTEMPTS wGen wRejEv).modification_history.length ≤
      MAX_MODIFICATION_ATTEMPTS :=
  revision_loop_eval_bound MAX_MODIFICATION_ATTEMPTS (by decide) wGen wRejEv

/-- C2: if the evaluator rejects on every evaluation, the loop for one
counselor round terminates with exactly `C` modification records and
`C + 1` recorded evaluations, and the final text is the last (`C`-th)
generated draft — the drafts list holds the attempt-0 draft at index 0
and the final response sits at index `C`, so the first draft is kept
only when the generator happens to reproduce it. -/
theorem revision_loop_always_reject (cap : Nat) (gen : String → String)
    (ev : Nat → ReasoningResult)
    (hrej : ∀ k, strHas (ev k).conclusion "是" = false) :
    (generateResponseLoop cap gen ev).modification_history.length = cap ∧
    (generateResponseLoop cap gen ev).reasoning_history.length = cap + 1 ∧
    (generateResponseLoop cap gen ev).generated_drafts.length = cap + 1 ∧
    (generateResponseLoop cap gen ev).final_response =
      (generateResponseLoop cap gen ev).generated_drafts.getD cap "" ∧
    (generateResponseLoop cap gen ev).generated_drafts.getD 0 "" = gen "" := by
  obtain ⟨-, hreas, -, hdrafts, hfinal, hzero, -, hcap⟩ :=
    generateResponseLoop_spec cap gen ev
  have hc := hcap hrej
  rw [hc] at hreas hdrafts hfinal
  exact ⟨hc, hreas, hdrafts, hfinal, hzero⟩

/-- Witness for the always-reject claim at the configured cap of 3,
with a generator whose regenerated drafts differ from the attempt-0
draft, so the final text is visibly not the first draft. -/
theorem revision_loop_always_reject_witness :
    ((generateResponseLoop MAX_MODIFICATION_ATTEMPTS wGen wRejEv).modification_history.length =
        MAX_MODIFICATION_ATTEMPTS ∧
      (generateResponseLoop MAX_MODIFICATION_ATTEMPTS wGen wRejEv).reasoning_history.length =
        MAX_MODIFICATION_ATTEMPTS + 1 ∧
      (generateResponseLoop MAX_MODIFICATION_ATTEMPTS wGen wRejEv).generated_drafts.length =
        MAX_MODIFICATION_ATTEMPTS + 1 ∧
      (generateResponseLoop MAX_MODIFICATION_ATTEMPTS wGen wRejEv).final_response =
        (generateResponseLoop MAX_MODIFICATION_ATTEMPTS wGen wRejEv).generated_drafts.getD
          MAX_MODIFICATION_ATTEMPTS "" ∧
      (generateResponseLoop MAX_MODIFICATION_ATTEMPTS wGen wRejEv).generated_drafts.getD 0 "" =
        wGen "") ∧
    (generateResponseLoop MAX_MODIFICATION_ATTEMPTS wGen wRejEv).final_response ≠ wGen "" :=
  ⟨revision_loop_always_reject MAX_MODIFICATION_ATTEMPTS wGen wRejEv
      (fun _ => (by decide : strHas "否" "是" = false)),
   by decide⟩

/-- C9: if the evaluator accepts the attempt-0 draft, the loop records
no modification record, exactly one evaluation, and the final text is
the attempt-0 draft (generated with empty guidance). -/
theorem revision_loop_first_accept (cap : Nat) (gen : String → String)
    (ev : Nat → ReasoningResult)
    (hacc : strHas (ev 0).conclusion "是" = true) :
    (generateResponseLoop cap gen ev).modification_history = [] ∧
    (generateResponseLoop cap gen ev).reasoning_history = [ev 0] ∧
    (generateResponseLoop cap gen ev).final_response = gen "" := by
  unfold generateResponseLoop
  have hout : generateLoopAux cap gen ev (cap + 1) 0 (gen "") [] [] [] [gen ""] =
      ⟨gen "", [] ++ [ev ([] : List ReasoningResult).length], [], [], [gen ""]⟩ := by
    simp only [generateLoopAux]
    rw [if_pos (Or.inl (by simpa using hacc))]
  rw [hout]
  exact ⟨rfl, by simp, rfl⟩

/-- Witness for the first-accept claim at the configured cap of 3,
with an always-accepting evaluator. -/
theorem revision_loop_first_accept_witness :
    (generateResponseLoop MAX_MODIFICATION_ATTEMPTS wGen wAccEv).modification_history = [] ∧
    (generateResponseLoop MAX_MODIFICATION_ATTEMPTS wGen wAccEv).reasoning_history = [wAccEv 0] ∧
    (generateResponseLoop MAX_MODIFICATION_ATTEMPTS wGen wAccEv).final_response = wGen "" :=
  revision_loop_first_accept MAX_MODIFICATION_ATTEMPTS wGen wAccEv (by decide)

/-- C3 counterexample: with the configured cap of 3, a generator whose
attempt-0 draft is `"A"` and whose regenerated drafts are `"B"`, and an
always-rejecting evaluator, the modification instruction built on the
second revising pass is not the cumulative instruction referencing the
original attempt-0 draft: the code builds it around the draft it just
evaluated (`"B"`), not around the attempt-0 draft (`"A"`). -/
theorem revision_loop_prompt_cex :
    (generateResponseLoop MAX_MODIFICATION_ATTEMPTS wGen wRejEv).modification_prompts.getD 1 "" ≠
      createModificationPrompt
        ((generateResponseLoop MAX_MODIFICATION_ATTEMPTS wGen wRejEv).modification_history.take 2)
        ((generateResponseLoop MAX_MODIFICATION_ATTEMPTS wGen wRejEv).generated_drafts.getD 0 "") ∧
    (generateResponseLoop MAX_MODIFICATION_ATTEMPTS wGen wRejEv).generated_drafts.getD 0 "" =
      wGen "" := by
  decide

/-- C3 (amended): on the `(j+1)`-th pass through the revising state the
cumulative modification instruction supplied to the generator is
`create_modification_prompt` applied to every stored modification
record so far (earlier improvement suggestions numbered in order, the
newest labeled the current request) and to the draft that was just
evaluated — the immediately preceding draft (which coincides with the
attempt-0 draft only on the first pass), not the attempt-0 original. -/
theorem revision_loop_prompt_uses_preceding_draft (cap : Nat)
    (gen : String → String) (ev : Nat → ReasoningResult) (j : Nat)
    (hj : j < (generateResponseLoop cap gen ev).modification_prompts.length) :
    (generateResponseLoop cap gen ev).modification_prompts.getD j "" =
      createModificationPrompt
        ((generateResponseLoop cap gen ev).modification_history.take (j + 1))
        ((generateResponseLoop cap gen ev).generated_drafts.getD j "") := by
  obtain ⟨-, -, -, -, -, -, hprompts, -⟩ := generateResponseLoop_spec cap gen ev
  exact hprompts j hj

/-- Witness for the amended cumulative-prompt claim, at the second
revising pass of the counterexample run. -/
theorem revision_loop_prompt_uses_preceding_draft_witness :
    (generateResponseLoop MAX_MODIFICATION_ATTEMPTS wGen wRejEv).modification_prompts.getD 1 "" =
      createModificationPrompt
        ((generateResponseLoop MAX_MODIFICATION_ATTEMPTS wGen wRejEv).modification_history.take 2)
        ((generateResponseLoop MAX_MODIFICATION_ATTEMPTS wGen wRejEv).generated_drafts.getD 1 "") :=
  revision_loop_prompt_uses_preceding_draft MAX_MODIFICATION_ATTEMPTS wGen wRejEv 1 (by decide)

/-! ### Evaluator-parser claims -/

/-- C8 counterexample: on the input `"是"` none of the three strict
extractions succeeds, so the parser falls back and marks the result
invalid — but although the affirmative token `"是"` appears in the
text, the verdict is still the Reject default `"否"`, because the
fallback upgrades the verdict only when the verdict field name `结论`
also appears. -/
theorem parse_fallback_cex :
    strictConclusion "是" = none ∧ strictSuggestion "是" = none ∧
    strictStage "是" = none ∧
    (parseReasoningResponse "是" "").is_valid = false ∧
    (parseReasoningResponse "是" "").conclusion = "否" ∧
    strHas "是" "是" = true := by
  decide

/-- C8 (amended): the parser is total — every input text yields a
result (the embedding is a total function, as is the source, which
performs no failing operation) — and whenever none of the three strict
field extractions succeeds it returns a result marked invalid whose
verdict is the affirmative `"是"` exactly when BOTH the verdict field
name and an affirmative token appear in the text (defaulting to the
Reject `"否"` otherwise), whose suggestion is the generic placeholder
unless the suggestion field name appears — in which case the text after
the nearest colon delimiter is taken when the loose pattern finds one,
the placeholder remaining otherwise — and whose phase is the
`"未识别"` (unrecognized) placeholder unless the phase field name
appears, treated likewise. -/
theorem parse_fallback_spec (content rc : String)
    (h1 : strictConclusion content = none)
    (h2 : strictSuggestion content = none)
    (_h3 : strictStage content = none) :
    (parseReasoningResponse content rc).is_valid = false ∧
    ((parseReasoningResponse content rc).conclusion = "是" ↔
      (strHas content "结论" = true ∧ strHas content "是" = true)) ∧
    ((parseReasoningResponse content rc).conclusion = "是" ∨
      (parseReasoningResponse content rc).conclusion = "否") ∧
    (strHas content "改进意见" = false →
      (parseReasoningResponse content rc).improvement_suggestion =
        "需要进一步改进回复内容") ∧
    (strHas content "改进意见" = true →
      (parseReasoningResponse content rc).improvement_suggestion =
        (looseSearch "改进意见" content).getD "需要进一步改进回复内容") ∧
    (strHas content "所处阶段" = false →
      (parseReasoningResponse content rc).current_stage = "未识别") ∧
    (strHas content "所处阶段" = true →
      (parseReasoningResponse content rc).current_stage =
        (looseSearch "所处阶段" content).getD "未识别") := by
  have hbranch : parseReasoningResponse content rc =
      { conclusion :=
          if strHas content "结论" then
            if strHas content "是" then "是" else "否"
          else "否",
        improvement_suggestion :=
          if strHas content "改进意见" then
            (looseSearch "改进意见" content).getD "需要进一步改进回复内容"
          else "需要进一步改进回复内容",
        current_stage :=
          if strHas content "所处阶段" then
            (looseSearch "所处阶段" content).getD "未识别"
          else "未识别",
        reasoning_content := rc,
        raw_response := content,
        is_valid := false,
        error_message := some "Failed to parse with strict pattern" } := by
    unfold parseReasoningResponse
    rw [h1, h2]
    simp
  rw [hbranch]
  refine ⟨rfl, ?_, ?_, ?_, ?_, ?_, ?_⟩
  · by_cases hc1 : strHas content "结论" <;> by_cases hc2 : strHas content "是" <;>
      simp [hc1, hc2]
  · by_cases hc1 : strHas content "结论" <;> by_cases hc2 : strHas content "是" <;>
      simp [hc1, hc2]
  · intro h
    simp [h]
  · intro h
    simp [h]
  · intro h
    simp [h]
  · intro h
    simp [h]

/-- Witness for the amended fallback claim: on the input `"hello"`
every strict extraction fails and every fallback default is produced. -/
theorem parse_fallback_spec_witness :
    (parseReasoningResponse "hello" "").is_valid = false ∧
    (parseReasoningResponse "hello" "").improvement_suggestion =
      "需要进一步改进回复内容" ∧
    (parseReasoningResponse "hello" "").current_stage = "未识别" :=
  ⟨(parse_fallback_spec "hello" "" (by decide) (by decide) (by decide)).1,
   (parse_fallback_spec "hello" "" (by decide) (by decide) (by decide)).2.2.2.1 (by decide),
   (parse_fallback_spec "hello" "" (by decide) (by decide) (by decide)).2.2.2.2.2.1 (by decide)⟩

end CounselingSystem
